import Mathlib

/-!
Verification of the Salesforce-to-Elasticsearch harvester
(`sf_to_elasticsearch.py`): a shallow embedding of the currency
normalizer, the record mapper, and the opportunity-id extractor, with
theorems settling the specification claims.

Numeric values are modelled as exact rationals; Python's `round`
(round-half-to-even) is modelled exactly on rationals.  Network fetches
and Salesforce queries are modelled by explicit outcome types, so the
functions stay pure and total.
-/

namespace SFHarvester

/-! ## Basic helpers: rounding, association-list dictionaries, strings -/

/-- Round a rational to the nearest integer, ties to even
(the semantics of Python's `round`). -/
def roundHalfEven (q : ℚ) : ℤ :=
  let f := ⌊q⌋
  let r := q - (f : ℚ)
  if r < 1/2 then f
  else if 1/2 < r then f + 1
  else if f % 2 = 0 then f else f + 1

/-- `roundTo d x` models Python's `round(x, d)` on exact rationals. -/
def roundTo (d : ℕ) (x : ℚ) : ℚ :=
  (roundHalfEven (x * 10 ^ d) : ℚ) / 10 ^ d

/-- Dictionary lookup on an association list (`dict.get(k)` / `k in dict`). -/
def dlookup (t : List (String × ℚ)) (k : String) : Option ℚ :=
  (t.find? (fun p => p.1 == k)).map (fun p => p.2)

/-- Dictionary lookup with default (`dict.get(k, v)`). -/
def dlookupD (t : List (String × ℚ)) (k : String) (v : ℚ) : ℚ :=
  (dlookup t k).getD v

/-- Dictionary assignment (`dict[k] = v`): replace an existing binding or
append a new one, preserving Python's insertion-order semantics. -/
def dinsert (t : List (String × ℚ)) (k : String) (v : ℚ) : List (String × ℚ) :=
  if t.any (fun p => p.1 == k) then
    t.map (fun p => if p.1 == k then (k, v) else p)
  else
    t ++ [(k, v)]

/-- Substring containment on character lists, the semantics of Python's
`pat in s` for a nonempty pattern. -/
def containsSubL (pat : List Char) : List Char → Bool
  | [] => pat.isEmpty
  | c :: cs => pat.isPrefixOf (c :: cs) || containsSubL pat cs

/-- `containsSub s pat` models Python's `pat in s`. -/
def containsSub (s pat : String) : Bool :=
  containsSubL pat.toList s.toList

/-- ASCII uppercase of one character (`str.upper` restricted to ASCII,
which covers currency codes). -/
def pyUpperChar (c : Char) : Char :=
  if c.isLower then Char.ofNat (c.toNat - 32) else c

/-- Python's default whitespace set for `str.strip()`. -/
def isPyWhitespace (c : Char) : Bool :=
  c = ' ' || c = '\t' || c = '\n' || c = '\x0d' || c = '\x0b' || c = '\x0c'

/-- `str.strip()`: drop leading and trailing whitespace. -/
def pyStrip (l : List Char) : List Char :=
  ((l.dropWhile isPyWhitespace).reverse.dropWhile isPyWhitespace).reverse

/-- Currency-code normalization: `code.upper().strip()`. -/
def normalizeCur (s : String) : String :=
  String.mk (pyStrip (s.toList.map pyUpperChar))

/-! ## Currency rate fetching (`get_currency_conversion_rates`) -/

/-- The static fallback table: units of USD per 1 unit of each currency
(source lines 174-185). -/
def fallback_rates : List (String × ℚ) :=
  [("USD", 1), ("EUR", 118/100), ("GBP", 137/100), ("JPY", 67/10000),
   ("CAD", 74/100), ("AUD", 67/100), ("CHF", 114/100), ("CNY", 14/100),
   ("INR", 12/1000), ("BRL", 20/100)]

/-- Outcome of the live-rate HTTP fetch.  `parsed success rates` is a
response that was fetched and JSON-decoded, carrying the `success` flag
(`data.get('success', False)`) and the `rates` object when the key is
present; `failed` covers network errors, timeouts, and any exception
raised while fetching or decoding. -/
inductive FetchOutcome where
  | parsed (success : Bool) (rates : Option (List (String × ℚ)))
  | failed
deriving DecidableEq

/-- The fallback branch of `get_currency_conversion_rates`: rescale the
static table when the requested base is not USD (source lines 216-229). -/
def fallbackTable (base_currency : String) : List (String × ℚ) :=
  if base_currency ≠ "USD" then
    let base_rate := dlookupD fallback_rates base_currency 1
    fallback_rates.map (fun p => (p.1, p.2 / base_rate))
  else
    fallback_rates

/-- `get_currency_conversion_rates` (source lines 158-229), parameterized
by the fetch outcome.  On a decoded response with a true `success` flag
and a `rates` object, invert each positive rate (the API reports rates
FROM the base), fall back per-currency on nonpositive rates, and force
the base-currency entry to 1; on every other outcome use the (possibly
rescaled) fallback table. -/
def get_currency_conversion_rates (base_currency : String)
    (outcome : FetchOutcome) : List (String × ℚ) :=
  match outcome with
  | .parsed true (some rates) =>
      let conversion_rates := rates.foldl
        (fun acc p =>
          if p.2 > 0 then
            dinsert acc p.1 (if p.1 ≠ base_currency then 1 / p.2 else 1)
          else
            dinsert acc p.1 (dlookupD fallback_rates p.1 1))
        []
      dinsert conversion_rates base_currency 1
  | _ => fallbackTable base_currency

/-! ## Currency conversion (`convert_currency_amount`) -/

/-- The result dictionary returned by `convert_currency_amount`
(source lines 251-259).  `original_amount` is `Option` because the
amount argument may be absent (`None`); the code's falsy test collapses
`None` and `0` into the zero branch, so `converted_amount` can be kept
a plain rational. -/
structure ConversionResult where
  original_amount : Option ℚ
  original_currency : String
  converted_amount : ℚ
  converted_currency : String
  conversion_rate : ℚ
  conversion_successful : Bool
  conversion_note : Option String
deriving DecidableEq, Repr

/-- `convert_currency_amount` (source lines 232-320).  A missing currency
code is modelled by the empty string (Python's falsy test on a string).
Division by a zero `to_rate` raises `ZeroDivisionError` in Python and is
caught by the surrounding `except`, producing the calculation-error
result. -/
def convert_currency_amount (amount : Option ℚ)
    (from_currency to_currency : String)
    (conversion_rates : List (String × ℚ)) : ConversionResult :=
  let a := amount.getD 0
  let result : ConversionResult :=
    { original_amount := amount
      original_currency := from_currency
      converted_amount := a
      converted_currency := to_currency
      conversion_rate := 1
      conversion_successful := false
      conversion_note := none }
  if a = 0 then
    { result with
        conversion_successful := true
        converted_amount := 0
        conversion_note := some "Zero amount" }
  else if from_currency = "" ∨ to_currency = "" then
    { result with conversion_note := some "Missing currency information" }
  else
    let fromCur := normalizeCur from_currency
    let toCur := normalizeCur to_currency
    if fromCur = toCur then
      { result with
          conversion_successful := true
          conversion_note := some "Same currency" }
    else if (dlookup conversion_rates fromCur).isNone then
      { result with
          conversion_note :=
            some ("Conversion rate not available for " ++ fromCur) }
    else
      if toCur = "USD" then
        let conversion_rate := dlookupD conversion_rates fromCur 0
        let converted_amount := a * conversion_rate
        { result with
            converted_amount := roundTo 2 converted_amount
            conversion_rate := roundTo 6 conversion_rate
            conversion_successful := true
            conversion_note := some "Converted via API rates" }
      else
        let usd_rate := dlookupD conversion_rates fromCur 0
        let to_rate := dlookupD conversion_rates toCur 1
        if to_rate = 0 then
          { result with
              conversion_note :=
                some "Conversion calculation error: float division by zero" }
        else
          let conversion_rate := usd_rate / to_rate
          let converted_amount := a * conversion_rate
          { result with
              converted_amount := roundTo 2 converted_amount
              conversion_rate := roundTo 6 conversion_rate
              conversion_successful := true
              conversion_note := some "Converted via API rates" }

/-! ## Record mapper (`query_opportunity_data`) -/

/-- A JSON-like field value in an output document. -/
inductive FieldValue where
  | null
  | str (s : String)
  | num (q : ℚ)
  | bool (b : Bool)
deriving DecidableEq, Repr

/-- An optional string field, mapped to `null` when absent. -/
def FieldValue.ostr (v : Option String) : FieldValue :=
  v.elim FieldValue.null FieldValue.str

/-- A Salesforce opportunity record as returned by the SOQL query.
`Account` and `Owner` carry `(Id, Name)` pairs when present; the
record's `Type` field is named `OppType` (`Type` is reserved). -/
structure OpportunityRecord where
  Id : String
  Name : String
  Description : Option String
  Amount : Option ℚ
  CurrencyIsoCode : Option String
  CloseDate : Option String
  StageName : Option String
  OppType : Option String
  Probability : Option ℚ
  IsWon : Bool
  IsClosed : Bool
  Account : Option (String × String)
  Owner : Option (String × String)
  CreatedDate : Option String
  LastModifiedDate : Option String
deriving DecidableEq

/-- An output document: an ordered mapping from field keys to values. -/
def OutputDocument := List (String × FieldValue)

/-- The found-case document (source lines 449-487), built from the raw
record, the currency conversion, and the extraction timestamp. -/
def found_data (o : OpportunityRecord) (target_currency : String)
    (conversion_rates : List (String × ℚ)) (extracted_at : String) :
    OutputDocument :=
  let original_currency := o.CurrencyIsoCode.getD "USD"
  let original_amount := o.Amount.getD 0
  let cc := convert_currency_amount (some original_amount)
    original_currency target_currency conversion_rates
  [("opportunity_id", .str o.Id),
   ("opportunity_name", .str o.Name),
   ("description", .ostr o.Description),
   ("amount", .num original_amount),
   ("currency_iso_code", .str original_currency),
   ("amount_converted", .num cc.converted_amount),
   ("converted_currency", .str cc.converted_currency),
   ("conversion_rate", .num cc.conversion_rate),
   ("conversion_successful", .bool cc.conversion_successful),
   ("conversion_note", .ostr cc.conversion_note),
   ("close_date", .ostr o.CloseDate),
   ("stage_name", .ostr o.StageName),
   ("type", .ostr o.OppType),
   ("probability", .num (o.Probability.getD 0)),
   ("is_won", .bool o.IsWon),
   ("is_closed", .bool o.IsClosed),
   ("account_id", .ostr (o.Account.map Prod.fst)),
   ("account_name", .ostr (o.Account.map Prod.snd)),
   ("owner_id", .ostr (o.Owner.map Prod.fst)),
   ("owner_name", .ostr (o.Owner.map Prod.snd)),
   ("created_date", .ostr o.CreatedDate),
   ("last_modified_date", .ostr o.LastModifiedDate),
   ("extracted_at", .str extracted_at),
   ("source", .str "salesforce_opportunity_integration")]

/-- The not-found document (source lines 397-425): sentinel values plus
`error_status` and `error_message`. -/
def not_found_data (opportunity_id target_currency extracted_at : String) :
    OutputDocument :=
  [("opportunity_id", .str opportunity_id),
   ("opportunity_name", .str "OPPORTUNITY NOT FOUND"),
   ("description", .str "opportunity deleted or not found"),
   ("amount", .num 0),
   ("currency_iso_code", .str "USD"),
   ("amount_converted", .num 0),
   ("converted_currency", .str target_currency),
   ("conversion_rate", .num 1),
   ("conversion_successful", .bool true),
   ("conversion_note", .str "No amount to convert"),
   ("close_date", .null),
   ("stage_name", .str "NOT_FOUND"),
   ("type", .str "MISSING"),
   ("probability", .num 0),
   ("is_won", .bool false),
   ("is_closed", .bool false),
   ("account_id", .null),
   ("account_name", .str "UNKNOWN"),
   ("owner_id", .null),
   ("owner_name", .str "UNKNOWN"),
   ("created_date", .null),
   ("last_modified_date", .null),
   ("extracted_at", .str extracted_at),
   ("source", .str "salesforce_opportunity_integration_not_found"),
   ("error_status", .str "OPPORTUNITY_NOT_FOUND"),
   ("error_message", .str "opportunity deleted or not found")]

/-- The query-exception classifier (source lines 494-520): substring
checks in order, with the generic category as the final fallthrough.
Returns `(error_type, error_message)`. -/
def classify_query_error (error_str : String) : String × String :=
  if containsSub error_str "No such column" ∧ containsSub error_str "__c" then
    ("CUSTOM_FIELD_ERROR", "Custom field error: " ++ error_str)
  else if containsSub error_str "INVALID_FIELD" then
    ("INVALID_FIELD_ERROR", "Invalid field error: " ++ error_str)
  else if containsSub error_str "MALFORMED_QUERY" then
    ("MALFORMED_QUERY_ERROR", "Malformed query error: " ++ error_str)
  else if containsSub error_str "INSUFFICIENT_ACCESS" then
    ("ACCESS_ERROR", "Insufficient access to query opportunity: " ++ error_str)
  else
    ("QUERY_ERROR", "Error querying Salesforce: " ++ error_str)

/-- The query-error document (source lines 523-551). -/
def error_data (opportunity_id target_currency : String)
    (error_type error_message : String) (extracted_at : String) :
    OutputDocument :=
  [("opportunity_id", .str opportunity_id),
   ("opportunity_name", .str ("ERROR: " ++ error_type)),
   ("description", .str error_message),
   ("amount", .num 0),
   ("currency_iso_code", .str "USD"),
   ("amount_converted", .num 0),
   ("converted_currency", .str target_currency),
   ("conversion_rate", .num 1),
   ("conversion_successful", .bool true),
   ("conversion_note", .str "No amount to convert (error)"),
   ("close_date", .null),
   ("stage_name", .str "ERROR"),
   ("type", .str "ERROR"),
   ("probability", .num 0),
   ("is_won", .bool false),
   ("is_closed", .bool false),
   ("account_id", .null),
   ("account_name", .str "ERROR"),
   ("owner_id", .null),
   ("owner_name", .str "ERROR"),
   ("created_date", .null),
   ("last_modified_date", .null),
   ("extracted_at", .str extracted_at),
   ("source", .str "salesforce_opportunity_integration_error"),
   ("error_status", .str error_type),
   ("error_message", .str error_message)]

/-- Outcome of the SOQL query: a record, zero rows, or an exception
carrying its message string. -/
inductive QueryOutcome where
  | found (o : OpportunityRecord)
  | notFound
  | queryError (msg : String)

/-- `query_opportunity_data` (source lines 335-553), parameterized by
the query outcome, the rate-fetch outcome, and the timestamp. -/
def query_opportunity_data (opportunity_id target_currency : String)
    (qo : QueryOutcome) (fo : FetchOutcome) (extracted_at : String) :
    OutputDocument :=
  match qo with
  | .found o =>
      found_data o target_currency
        (get_currency_conversion_rates target_currency fo) extracted_at
  | .notFound => not_found_data opportunity_id target_currency extracted_at
  | .queryError msg =>
      let c := classify_query_error msg
      error_data opportunity_id target_currency c.1 c.2 extracted_at

/-- The ordered list of field keys of a document. -/
def docKeys (d : OutputDocument) : List String :=
  d.map Prod.fst

/-- Look a field up in a document. -/
def getField (d : OutputDocument) (k : String) : Option FieldValue :=
  (d.find? (fun p => p.1 == k)).map (fun p => p.2)

/-! ## Opportunity-id extraction (`extract_opportunity_id`) -/

/-- `[A-Za-z0-9]` (ASCII alphanumeric). -/
def isAlnum (c : Char) : Bool :=
  c.isAlpha || c.isDigit

/-- Length of the leading run of alphanumeric characters. -/
def alnumRun : List Char → Nat
  | [] => 0
  | c :: cs => if isAlnum c then alnumRun cs + 1 else 0

/-- Try the pattern `006[A-Za-z0-9]{12,15}` anchored at the head of the
list: literal `006` then a greedy run of 12 to 15 alphanumerics. -/
def matchStdAt : List Char → Option (List Char)
  | '0' :: '0' :: '6' :: rest =>
      if 12 ≤ alnumRun rest then
        some ('0' :: '0' :: '6' :: rest.take (min (alnumRun rest) 15))
      else none
  | _ => none

/-- `re.search` for the standard pattern: leftmost match. -/
def searchStd : List Char → Option (List Char)
  | [] => none
  | c :: cs =>
      match matchStdAt (c :: cs) with
      | some m => some m
      | none => searchStd cs

/-- Consume a literal: `dropLit lit s = some rest` iff `s = lit ++ rest`. -/
def dropLit : List Char → List Char → Option (List Char)
  | [], s => some s
  | _ :: _, [] => none
  | l :: ls, c :: cs => if l = c then dropLit ls cs else none

/-- Try a URL pattern (`lit` followed by a captured greedy run of 15 to
18 alphanumerics) anchored at the head of the list; returns the captured
group. -/
def matchCapAt (lit : List Char) (s : List Char) : Option (List Char) :=
  match dropLit lit s with
  | none => none
  | some rest =>
      if 15 ≤ alnumRun rest then some (rest.take (min (alnumRun rest) 18))
      else none

/-- `re.search` for a capture pattern: leftmost match. -/
def searchCap (lit : List Char) : List Char → Option (List Char)
  | [] => none
  | c :: cs =>
      match matchCapAt lit (c :: cs) with
      | some m => some m
      | none => searchCap lit cs

/-- Does the candidate id start with the literal `006`
(`opportunity_id.startswith('006')`)? -/
def startsWith006 (l : List Char) : Bool :=
  ['0', '0', '6'].isPrefixOf l

/-- `extract_opportunity_id` (source lines 100-127): try the three
patterns in order; each pattern contributes only its first match, which
is returned when it starts with `006`, the loop moving on to the next
pattern otherwise. -/
def extract_opportunity_id (url : String) : Option String :=
  match (searchStd url.toList).filter startsWith006 with
  | some id => some (String.mk id)
  | none =>
    match (searchCap "/Opportunity/".toList url.toList).filter startsWith006 with
    | some id => some (String.mk id)
    | none =>
      match (searchCap "Opportunity%2F".toList url.toList).filter startsWith006 with
      | some id => some (String.mk id)
      | none => none

/-! ## Theorems about the currency converter -/

/-- C6: with a zero or absent amount, `convert_currency_amount` returns
success, converted amount 0, and the note "Zero amount", for every rate
table and currency pair, before any currency-code checks are applied. -/
theorem C6_zero_amount_short_circuit (amount : Option ℚ)
    (from_currency to_currency : String) (rt : List (String × ℚ))
    (h : amount.getD 0 = 0) :
    (convert_currency_amount amount from_currency to_currency rt).conversion_successful
        = true ∧
    (convert_currency_amount amount from_currency to_currency rt).converted_amount
        = 0 ∧
    (convert_currency_amount amount from_currency to_currency rt).conversion_note
        = some "Zero amount" := by
  simp [convert_currency_amount, h]

/-- C6 witness: `convert(0, "EUR", "USD", ...)` on a junk table. -/
theorem C6_zero_amount_witness :
    ((some (0 : ℚ)).getD 0 = 0) ∧
    ((convert_currency_amount (some 0) "EUR" "USD" [("XX", 5)]).conversion_successful
        = true ∧
     (convert_currency_amount (some 0) "EUR" "USD" [("XX", 5)]).converted_amount
        = 0 ∧
     (convert_currency_amount (some 0) "EUR" "USD" [("XX", 5)]).conversion_note
        = some "Zero amount") :=
  ⟨rfl, C6_zero_amount_short_circuit (some 0) "EUR" "USD" [("XX", 5)] rfl⟩

/-- C7: for a nonzero amount, a missing currency code yields failure with
note "Missing currency information" and the converted amount left equal
to the original; a source currency absent from the table yields failure
with a note naming the missing currency and the converted amount again
left equal to the original. -/
theorem C7_failure_preserves_amount (amount : Option ℚ) (a : ℚ)
    (f t : String) (rt : List (String × ℚ))
    (ha : amount = some a) (h0 : a ≠ 0) :
    ((f = "" ∨ t = "") →
      (convert_currency_amount amount f t rt).conversion_successful = false ∧
      (convert_currency_amount amount f t rt).conversion_note
          = some "Missing currency information" ∧
      (convert_currency_amount amount f t rt).converted_amount = a) ∧
    (f ≠ "" → t ≠ "" → normalizeCur f ≠ normalizeCur t →
      dlookup rt (normalizeCur f) = none →
      (convert_currency_amount amount f t rt).conversion_successful = false ∧
      (convert_currency_amount amount f t rt).conversion_note
          = some ("Conversion rate not available for " ++ normalizeCur f) ∧
      (convert_currency_amount amount f t rt).converted_amount = a) := by
  subst ha
  constructor
  · intro hmiss
    rcases hmiss with hm | hm <;> simp [convert_currency_amount, h0, hm]
  · intro hf ht hne hlook
    simp [convert_currency_amount, h0, hf, ht, hne, hlook]

/-- C7 witness: missing source code, and a source currency absent from
the table. -/
theorem C7_failure_preserves_amount_witness :
    ((convert_currency_amount (some 5) "" "USD" [("USD", 1)]).conversion_successful
        = false ∧
     (convert_currency_amount (some 5) "" "USD" [("USD", 1)]).conversion_note
        = some "Missing currency information" ∧
     (convert_currency_amount (some 5) "" "USD" [("USD", 1)]).converted_amount = 5) ∧
    ((convert_currency_amount (some 5) "SEK" "USD" [("USD", 1)]).conversion_successful
        = false ∧
     (convert_currency_amount (some 5) "SEK" "USD" [("USD", 1)]).conversion_note
        = some ("Conversion rate not available for " ++ normalizeCur "SEK") ∧
     (convert_currency_amount (some 5) "SEK" "USD" [("USD", 1)]).converted_amount = 5) :=
  ⟨(C7_failure_preserves_amount (some 5) 5 "" "USD" [("USD", 1)] rfl
      (by norm_num)).1 (Or.inl rfl),
   (C7_failure_preserves_amount (some 5) 5 "SEK" "USD" [("USD", 1)] rfl
      (by norm_num)).2 (by decide) (by decide) (by decide) (by decide)⟩

/-- C2 counterexample: a successful non-no-op conversion whose converted
amount does NOT equal `round(original_amount * stored_rate, 2)`: the code
rounds the raw rate to 6 decimals before storing it, so a rate below
5e-7 is stored as 0 while the converted amount is computed from the raw
rate. -/
theorem C2_counterexample :
    (convert_currency_amount (some 100000000) "JPY" "USD"
        [("JPY", 1/10000000), ("USD", 1)]).conversion_successful = true ∧
    (convert_currency_amount (some 100000000) "JPY" "USD"
        [("JPY", 1/10000000), ("USD", 1)]).conversion_note ≠ some "Zero amount" ∧
    (convert_currency_amount (some 100000000) "JPY" "USD"
        [("JPY", 1/10000000), ("USD", 1)]).conversion_note ≠ some "Same currency" ∧
    (convert_currency_amount (some 100000000) "JPY" "USD"
        [("JPY", 1/10000000), ("USD", 1)]).converted_amount ≠
      roundTo 2 ((100000000 : ℚ) *
        (convert_currency_amount (some 100000000) "JPY" "USD"
          [("JPY", 1/10000000), ("USD", 1)]).conversion_rate) := by
  refine ⟨by decide, by decide, by decide, ?_⟩
  have h1 : (convert_currency_amount (some 100000000) "JPY" "USD"
      [("JPY", 1/10000000), ("USD", 1)]).converted_amount
      = roundTo 2 ((100000000 : ℚ) * (1/10000000)) := rfl
  have h2 : (convert_currency_amount (some 100000000) "JPY" "USD"
      [("JPY", 1/10000000), ("USD", 1)]).conversion_rate
      = roundTo 6 ((1 : ℚ)/10000000) := rfl
  rw [h1, h2]
  norm_num [roundTo, roundHalfEven]

/-- C2 amended: on every success other than the zero-amount and
same-currency cases, `converted_amount = round(original_amount * r, 2)`
and the stored rate is `round(r, 6)`, where `r` is the raw applied rate
read off the table (so the claim as stated holds exactly when `r` equals
its own 6-decimal rounding); in the zero-amount and same-currency cases
the stored rate is 1. -/
theorem C2_success_rounding (amount : Option ℚ) (f t : String)
    (rt : List (String × ℚ)) :
    ((convert_currency_amount amount f t rt).conversion_successful = true →
      (convert_currency_amount amount f t rt).conversion_note ≠ some "Zero amount" →
      (convert_currency_amount amount f t rt).conversion_note ≠ some "Same currency" →
      (convert_currency_amount amount f t rt).converted_amount =
        roundTo 2 (amount.getD 0 *
          (if normalizeCur t = "USD" then dlookupD rt (normalizeCur f) 0
           else dlookupD rt (normalizeCur f) 0 / dlookupD rt (normalizeCur t) 1)) ∧
      (convert_currency_amount amount f t rt).conversion_rate =
        roundTo 6
          (if normalizeCur t = "USD" then dlookupD rt (normalizeCur f) 0
           else dlookupD rt (normalizeCur f) 0 / dlookupD rt (normalizeCur t) 1)) ∧
    (((convert_currency_amount amount f t rt).conversion_note = some "Zero amount" ∨
      (convert_currency_amount amount f t rt).conversion_note = some "Same currency") →
      (convert_currency_amount amount f t rt).conversion_rate = 1) := by
  by_cases h0 : amount.getD 0 = 0
  · simp [convert_currency_amount, h0]
  by_cases hmf : f = ""
  · simp [convert_currency_amount, h0, hmf]
  by_cases hmt : t = ""
  · simp [convert_currency_amount, h0, hmf, hmt]
  by_cases hsame : normalizeCur f = normalizeCur t
  · simp [convert_currency_amount, h0, hmf, hmt, hsame]
  by_cases hmiss : (dlookup rt (normalizeCur f)).isNone = true
  · simp [convert_currency_amount, h0, hmf, hmt, hsame, hmiss]
  by_cases husd : normalizeCur t = "USD"
  · rw [husd] at hsame
    simp [convert_currency_amount, h0, hmf, hmt, hsame, hmiss, husd]
  by_cases hzr : dlookupD rt (normalizeCur t) 1 = 0
  · simp [convert_currency_amount, h0, hmf, hmt, hsame, hmiss, husd, hzr]
  · simp [convert_currency_amount, h0, hmf, hmt, hsame, hmiss, husd, hzr]

/-- C2 witness: the non-no-op success clause at
`convert(100, "JPY", "USD", {"JPY": 0.0067, "USD": 1.0})` and the
no-op clause at a zero amount. -/
theorem C2_success_rounding_witness :
    ((convert_currency_amount (some 100) "JPY" "USD"
        [("JPY", 67/10000), ("USD", 1)]).converted_amount =
      roundTo 2 ((some (100:ℚ)).getD 0 *
        (if normalizeCur "USD" = "USD"
         then dlookupD [("JPY", 67/10000), ("USD", 1)] (normalizeCur "JPY") 0
         else dlookupD [("JPY", 67/10000), ("USD", 1)] (normalizeCur "JPY") 0 /
           dlookupD [("JPY", 67/10000), ("USD", 1)] (normalizeCur "USD") 1)) ∧
     (convert_currency_amount (some 100) "JPY" "USD"
        [("JPY", 67/10000), ("USD", 1)]).conversion_rate =
      roundTo 6
        (if normalizeCur "USD" = "USD"
         then dlookupD [("JPY", 67/10000), ("USD", 1)] (normalizeCur "JPY") 0
         else dlookupD [("JPY", 67/10000), ("USD", 1)] (normalizeCur "JPY") 0 /
           dlookupD [("JPY", 67/10000), ("USD", 1)] (normalizeCur "USD") 1)) ∧
    (convert_currency_amount (some 0) "JPY" "USD" [("JPY", 67/10000)]).conversion_rate
        = 1 :=
  ⟨(C2_success_rounding (some 100) "JPY" "USD" [("JPY", 67/10000), ("USD", 1)]).1
      (by decide) (by decide) (by decide),
   (C2_success_rounding (some 0) "JPY" "USD" [("JPY", 67/10000)]).2
      (Or.inl (by decide))⟩

/-- C4 counterexample: the code branches on the literal target `'USD'`,
not on the table's natural base.  With a EUR-based table (EUR entry 1,
USD entry 0.85), converting GBP to USD applies `rate[GBP]` directly
instead of the cross rate `rate[GBP] / rate[USD]`, although USD differs
from the table's natural base. -/
theorem C4_counterexample :
    dlookup [("EUR", 1), ("USD", 85/100), ("GBP", 117/100)] "USD" ≠ some 1 ∧
    dlookup [("EUR", 1), ("USD", 85/100), ("GBP", 117/100)] "EUR" = some 1 ∧
    (convert_currency_amount (some 100) "GBP" "USD"
        [("EUR", 1), ("USD", 85/100), ("GBP", 117/100)]).conversion_successful
      = true ∧
    (convert_currency_amount (some 100) "GBP" "USD"
        [("EUR", 1), ("USD", 85/100), ("GBP", 117/100)]).conversion_rate
      = 117/100 ∧
    (convert_currency_amount (some 100) "GBP" "USD"
        [("EUR", 1), ("USD", 85/100), ("GBP", 117/100)]).conversion_rate ≠
      roundTo 6 ((117/100 : ℚ) / (85/100)) := by
  have h1 : (convert_currency_amount (some 100) "GBP" "USD"
      [("EUR", 1), ("USD", 85/100), ("GBP", 117/100)]).conversion_rate
      = roundTo 6 ((117 : ℚ)/100) := rfl
  refine ⟨?_, rfl, by decide, ?_, ?_⟩
  · rw [show dlookup [("EUR", 1), ("USD", 85/100), ("GBP", 117/100)] "USD"
        = some (85/100) from rfl]
    simp only [ne_eq, Option.some.injEq]
    norm_num
  · rw [h1]; norm_num [roundTo, roundHalfEven]
  · rw [h1]; norm_num [roundTo, roundHalfEven]

/-- C4 amended: for a nonzero amount, distinct normalized codes and a
table containing the source currency, the branch is keyed on the literal
target code "USD": target "USD" gives `round(amount * rate[from], 2)`
with stored rate `round(rate[from], 6)`; any other target applies the
cross rate `rate[from] / rate.get(to, 1)` (rounded to 6 decimals, the
converted amount to 2) provided that divisor is nonzero. -/
theorem C4_usd_vs_cross_branch (amount : Option ℚ) (a rf : ℚ)
    (f t : String) (rt : List (String × ℚ))
    (ha : amount = some a) (h0 : a ≠ 0) (hf : f ≠ "") (ht : t ≠ "")
    (hne : normalizeCur f ≠ normalizeCur t)
    (hfrom : dlookup rt (normalizeCur f) = some rf) :
    (normalizeCur t = "USD" →
      (convert_currency_amount amount f t rt).converted_amount
          = roundTo 2 (a * rf) ∧
      (convert_currency_amount amount f t rt).conversion_rate
          = roundTo 6 rf ∧
      (convert_currency_amount amount f t rt).conversion_successful = true) ∧
    (normalizeCur t ≠ "USD" → dlookupD rt (normalizeCur t) 1 ≠ 0 →
      (convert_currency_amount amount f t rt).conversion_rate
          = roundTo 6 (rf / dlookupD rt (normalizeCur t) 1) ∧
      (convert_currency_amount amount f t rt).converted_amount
          = roundTo 2 (a * (rf / dlookupD rt (normalizeCur t) 1)) ∧
      (convert_currency_amount amount f t rt).conversion_successful = true) := by
  subst ha
  constructor
  · intro husd
    rw [husd] at hne
    simp [convert_currency_amount, h0, hf, ht, hne, hfrom, husd, dlookupD]
  · intro husd hzr
    simp only [dlookupD] at hzr
    simp [convert_currency_amount, h0, hf, ht, hne, hfrom, husd, hzr, dlookupD]

/-- C4 witness: the spec's concrete example
`convert(100, "JPY", "USD", {"JPY": 0.0067, "USD": 1.0})`, together with
the numeric evaluation of the rounded results (0.67 and 0.0067). -/
theorem C4_usd_vs_cross_branch_witness :
    ((convert_currency_amount (some 100) "JPY" "USD"
        [("JPY", 67/10000), ("USD", 1)]).converted_amount
        = roundTo 2 ((100 : ℚ) * (67/10000)) ∧
     (convert_currency_amount (some 100) "JPY" "USD"
        [("JPY", 67/10000), ("USD", 1)]).conversion_rate
        = roundTo 6 ((67 : ℚ)/10000) ∧
     (convert_currency_amount (some 100) "JPY" "USD"
        [("JPY", 67/10000), ("USD", 1)]).conversion_successful = true) ∧
    roundTo 2 ((100 : ℚ) * (67/10000)) = 67/100 ∧
    roundTo 6 ((67 : ℚ)/10000) = 67/10000 :=
  ⟨(C4_usd_vs_cross_branch (some 100) 100 (67/10000) "JPY" "USD"
      [("JPY", 67/10000), ("USD", 1)] rfl (by norm_num) (by decide) (by decide)
      (by decide) rfl).1 (by decide),
   by norm_num [roundTo, roundHalfEven], by norm_num [roundTo, roundHalfEven]⟩

/-- C10: with a nonzero amount, the source currency in the table, and a
target that is neither "USD" nor present in the table, the conversion
still succeeds, silently defaulting the missing target rate to 1
(`rate = round(rate[from] / 1, 6)`) instead of failing as it does for a
missing source currency. -/
theorem C10_missing_target_silent_success (amount : Option ℚ) (a rf : ℚ)
    (f t : String) (rt : List (String × ℚ))
    (ha : amount = some a) (h0 : a ≠ 0) (hf : f ≠ "") (ht : t ≠ "")
    (hne : normalizeCur f ≠ normalizeCur t)
    (hfrom : dlookup rt (normalizeCur f) = some rf)
    (husd : normalizeCur t ≠ "USD")
    (hto : dlookup rt (normalizeCur t) = none) :
    (convert_currency_amount amount f t rt).conversion_successful = true ∧
    (convert_currency_amount amount f t rt).conversion_rate
        = roundTo 6 (rf / 1) ∧
    (convert_currency_amount amount f t rt).converted_amount
        = roundTo 2 (a * (rf / 1)) := by
  subst ha
  simp [convert_currency_amount, h0, hf, ht, hne, hfrom, husd, hto, dlookupD]

/-- C10 witness: converting JPY to SEK against a table that lacks SEK. -/
theorem C10_missing_target_witness :
    dlookup [("JPY", 67/10000)] (normalizeCur "SEK") = none ∧
    ((convert_currency_amount (some 100) "JPY" "SEK"
        [("JPY", 67/10000)]).conversion_successful = true ∧
     (convert_currency_amount (some 100) "JPY" "SEK"
        [("JPY", 67/10000)]).conversion_rate = roundTo 6 ((67/10000 : ℚ) / 1) ∧
     (convert_currency_amount (some 100) "JPY" "SEK"
        [("JPY", 67/10000)]).converted_amount
        = roundTo 2 ((100 : ℚ) * (67/10000 / 1))) :=
  ⟨rfl,
   C10_missing_target_silent_success (some 100) 100 (67/10000) "JPY" "SEK"
     [("JPY", 67/10000)] rfl (by norm_num) (by decide) (by decide) (by decide)
     rfl (by decide) rfl⟩

/-! ## Theorems about the rate-table fetcher -/

/-- Looking up through a value-only map rewrites pointwise. -/
theorem dlookup_map (l : List (String × ℚ)) (g : ℚ → ℚ) (k : String) :
    dlookup (l.map (fun p => (p.1, g p.2))) k = (dlookup l k).map g := by
  induction l with
  | nil => rfl
  | cons p l ih =>
    by_cases h : p.1 == k
    · simp [dlookup, List.find?, h]
    · simp only [dlookup, List.map_cons, List.find?] at ih ⊢
      rw [Bool.not_eq_true] at h
      simp only [h]
      exact ih

/-- Looking up an appended fresh binding. -/
theorem dlookup_append_single (t : List (String × ℚ)) (k : String) (v : ℚ)
    (h : t.any (fun p => p.1 == k) = false) :
    dlookup (t ++ [(k, v)]) k = some v := by
  induction t with
  | nil => simp [dlookup, List.find?]
  | cons p l ih =>
    simp only [List.any_cons, Bool.or_eq_false_iff] at h
    simp only [dlookup, List.cons_append, List.find?, h.1]
    exact ih h.2

/-- Looking up an overwritten binding. -/
theorem dlookup_overwrite (t : List (String × ℚ)) (k : String) (v : ℚ)
    (h : t.any (fun p => p.1 == k) = true) :
    dlookup (t.map (fun p => if p.1 == k then (k, v) else p)) k = some v := by
  induction t with
  | nil => simp at h
  | cons p l ih =>
    by_cases hp : p.1 == k
    · simp [dlookup, List.find?, hp]
    · rw [Bool.not_eq_true] at hp
      simp only [List.any_cons, hp, Bool.false_or] at h
      simp only [dlookup, List.map_cons, hp, Bool.false_eq_true, if_false,
        List.find?, hp]
      exact ih h

/-- Dictionary assignment makes the key map to the assigned value. -/
theorem dlookup_dinsert (t : List (String × ℚ)) (k : String) (v : ℚ) :
    dlookup (dinsert t k v) k = some v := by
  unfold dinsert
  by_cases h : t.any (fun p => p.1 == k)
  · rw [if_pos h]; exact dlookup_overwrite t k v h
  · rw [Bool.not_eq_true] at h
    rw [if_neg (by simp [h])]
    exact dlookup_append_single t k v h

/-- Dictionary assignment never empties the dictionary. -/
theorem dinsert_ne_nil (t : List (String × ℚ)) (k : String) (v : ℚ) :
    dinsert t k v ≠ [] := by
  unfold dinsert
  split_ifs with h
  · cases t with
    | nil => simp at h
    | cons p l => simp
  · simp

/-- A successful lookup comes from a member binding. -/
theorem dlookup_mem {l : List (String × ℚ)} {k : String} {v : ℚ}
    (h : dlookup l k = some v) : (k, v) ∈ l := by
  unfold dlookup at h
  cases hf : l.find? (fun p => p.1 == k) with
  | none => rw [hf] at h; simp at h
  | some p =>
    rw [hf] at h
    have hp := List.find?_some hf
    have hm : p ∈ l := List.mem_of_find?_eq_some hf
    cases p with
    | mk k' v' =>
      simp only [Option.map_some', Option.some.injEq] at h
      simp only [beq_iff_eq] at hp
      subst hp
      subst h
      exact hm

/-- Every fallback rate is positive. -/
theorem fallback_rates_pos : ∀ p ∈ fallback_rates, 0 < p.2 := by
  intro p hp
  fin_cases hp <;> norm_num

/-- C3 counterexample: on the fallback path with a base currency that is
not one of the ten fallback currencies, the returned table has no entry
for the base currency at all. -/
theorem C3_counterexample :
    dlookup (get_currency_conversion_rates "SEK" FetchOutcome.failed) "SEK"
      = none := by decide

/-- C3 amended: on the live path the base-currency entry is forced to
exactly 1; on the fallback path the base-currency entry is exactly 1
when the base is one of the fallback currencies, and is absent
otherwise. -/
theorem C3_base_entry (base : String) (outcome : FetchOutcome) :
    (∀ rates, outcome = FetchOutcome.parsed true (some rates) →
      dlookup (get_currency_conversion_rates base outcome) base = some 1) ∧
    ((∀ rates, outcome ≠ FetchOutcome.parsed true (some rates)) →
      ((dlookup fallback_rates base).isSome →
        dlookup (get_currency_conversion_rates base outcome) base = some 1) ∧
      (dlookup fallback_rates base = none →
        dlookup (get_currency_conversion_rates base outcome) base = none)) := by
  constructor
  · intro rates hout
    subst hout
    exact dlookup_dinsert _ base 1
  · intro hfb
    have hget : get_currency_conversion_rates base outcome = fallbackTable base := by
      cases outcome with
      | parsed s r =>
        cases s with
        | false => rfl
        | true =>
          cases r with
          | none => rfl
          | some rates => exact absurd rfl (hfb rates)
      | failed => rfl
    rw [hget]
    constructor
    · intro hsome
      obtain ⟨v, hv⟩ := Option.isSome_iff_exists.mp hsome
      have hvpos : 0 < v := fallback_rates_pos (base, v) (dlookup_mem hv)
      unfold fallbackTable
      split_ifs with hb
      · rw [dlookup_map fallback_rates
          (fun x => x / dlookupD fallback_rates base 1) base, hv]
        simp only [Option.map_some', Option.some.injEq, dlookupD, hv,
          Option.getD_some]
        exact div_self (ne_of_gt hvpos)
      · push_neg at hb
        subst hb
        decide
    · intro hnone
      unfold fallbackTable
      split_ifs with hb
      · rw [dlookup_map fallback_rates
          (fun x => x / dlookupD fallback_rates base 1) base, hnone]
        rfl
      · push_neg at hb
        subst hb
        exact absurd hnone (by decide)


/-- C3 witness: live path with base EUR, fallback path with base EUR
(a fallback currency), and fallback path with base SEK (absent). -/
theorem C3_base_entry_witness :
    dlookup (get_currency_conversion_rates "EUR"
        (FetchOutcome.parsed true (some [("JPY", 150)]))) "EUR" = some 1 ∧
    dlookup (get_currency_conversion_rates "EUR" FetchOutcome.failed) "EUR"
        = some 1 ∧
    dlookup (get_currency_conversion_rates "SEK" FetchOutcome.failed) "SEK"
        = none :=
  ⟨(C3_base_entry "EUR" (FetchOutcome.parsed true (some [("JPY", 150)]))).1
      [("JPY", 150)] rfl,
   ((C3_base_entry "EUR" FetchOutcome.failed).2
      (fun _ h => FetchOutcome.noConfusion h)).1 (by decide),
   ((C3_base_entry "SEK" FetchOutcome.failed).2
      (fun _ h => FetchOutcome.noConfusion h)).2 (by decide)⟩

/-- Every non-live fetch outcome lands on the fallback table. -/
theorem get_rates_fallback (base : String) (outcome : FetchOutcome)
    (hfb : ∀ rates, outcome ≠ FetchOutcome.parsed true (some rates)) :
    get_currency_conversion_rates base outcome = fallbackTable base := by
  cases outcome with
  | parsed s r =>
    cases s with
    | false => rfl
    | true =>
      cases r with
      | none => rfl
      | some rates => exact absurd rfl (hfb rates)
  | failed => rfl

/-- C5: `get_currency_conversion_rates` is total (it is a Lean function,
so it cannot raise) and always returns a non-empty table; on every
non-live outcome (network error, timeout, malformed or unsuccessful
response) it returns the static fallback table, each entry divided by
the fallback rate of the requested base currency when that base is not
USD. -/
theorem C5_fallback_robustness (base : String) (outcome : FetchOutcome) :
    get_currency_conversion_rates base outcome ≠ [] ∧
    ((∀ rates, outcome ≠ FetchOutcome.parsed true (some rates)) → ∀ c,
      dlookup (get_currency_conversion_rates base outcome) c =
        (dlookup fallback_rates c).map
          (fun r => r /
            (if base = "USD" then 1 else dlookupD fallback_rates base 1))) := by
  constructor
  · have hfallback : fallbackTable base ≠ [] := by
      unfold fallbackTable
      split_ifs <;> simp [fallback_rates]
    cases outcome with
    | parsed s r =>
      cases s with
      | false => exact hfallback
      | true =>
        cases r with
        | none => exact hfallback
        | some rates => exact dinsert_ne_nil _ base 1
    | failed => exact hfallback
  · intro hfb c
    rw [get_rates_fallback base outcome hfb]
    by_cases hb : base = "USD"
    · subst hb
      rw [show fallbackTable "USD" = fallback_rates from rfl]
      cases h : dlookup fallback_rates c <;> simp
    · have hmap := dlookup_map fallback_rates
        (fun x => x / dlookupD fallback_rates base 1) c
      unfold fallbackTable
      rw [if_pos hb]
      simpa [hb] using hmap

/-- C5 witness: a live outcome gives a non-empty table, and on a network
failure with base EUR every entry is the USD fallback entry divided by
the EUR fallback rate. -/
theorem C5_fallback_robustness_witness :
    get_currency_conversion_rates "USD"
        (FetchOutcome.parsed true (some [("JPY", 150)])) ≠ [] ∧
    dlookup (get_currency_conversion_rates "EUR" FetchOutcome.failed) "JPY" =
      (dlookup fallback_rates "JPY").map
        (fun r => r /
          (if "EUR" = "USD" then 1 else dlookupD fallback_rates "EUR" 1)) :=
  ⟨(C5_fallback_robustness "USD"
      (FetchOutcome.parsed true (some [("JPY", 150)]))).1,
   (C5_fallback_robustness "EUR" FetchOutcome.failed).2
      (fun _ h => FetchOutcome.noConfusion h) "JPY"⟩

/-! ## Theorems about the record mapper -/

/-- C1 counterexample: the not-found document carries an `error_status`
key but the found-case document does not, so the three mapper cases do
not share an identical key set. -/
theorem C1_counterexample :
    "error_status" ∈ docKeys (query_opportunity_data "006X" "USD"
        QueryOutcome.notFound FetchOutcome.failed "t") ∧
    "error_status" ∉ docKeys (query_opportunity_data "006X" "USD"
        (QueryOutcome.found ⟨"006X", "Acme", none, none, none, none, none,
          none, none, false, false, none, none, none, none⟩)
        FetchOutcome.failed "t") := by decide

/-- C1 amended: the not-found and error documents share one identical
ordered key set, which is exactly the found-case document's key set
followed by `error_status` and `error_message`; the found-case document
itself lacks those two keys. -/
theorem C1_schema_keys (oid target ts : String) (o : OpportunityRecord)
    (fo : FetchOutcome) (msg : String) :
    docKeys (query_opportunity_data oid target QueryOutcome.notFound fo ts) =
      docKeys (query_opportunity_data oid target
        (QueryOutcome.queryError msg) fo ts) ∧
    docKeys (query_opportunity_data oid target (QueryOutcome.found o) fo ts)
        ++ ["error_status", "error_message"] =
      docKeys (query_opportunity_data oid target QueryOutcome.notFound fo ts) := by
  constructor <;> rfl

/-- Reading `error_status` from an error document returns its
classified error type. -/
theorem getField_error_status (oid target et em ts : String) :
    getField (error_data oid target et em ts) "error_status"
      = some (FieldValue.str et) := rfl

/-- C8 amended: an exception message containing "INVALID_FIELD" is
mapped to `error_status = "INVALID_FIELD_ERROR"` unless the earlier
custom-field pattern ("No such column" together with "__c") already
matched it; and a message matching none of the four known patterns
always falls through to the generic "QUERY_ERROR" status, so no message
is left unclassified. -/
theorem C8_error_classification (msg oid target ts : String)
    (fo : FetchOutcome) :
    (containsSub msg "INVALID_FIELD" = true →
      ¬(containsSub msg "No such column" = true ∧ containsSub msg "__c" = true) →
      getField (query_opportunity_data oid target
          (QueryOutcome.queryError msg) fo ts) "error_status"
        = some (FieldValue.str "INVALID_FIELD_ERROR")) ∧
    (containsSub msg "INVALID_FIELD" = false →
      ¬(containsSub msg "No such column" = true ∧ containsSub msg "__c" = true) →
      containsSub msg "MALFORMED_QUERY" = false →
      containsSub msg "INSUFFICIENT_ACCESS" = false →
      getField (query_opportunity_data oid target
          (QueryOutcome.queryError msg) fo ts) "error_status"
        = some (FieldValue.str "QUERY_ERROR")) := by
  have hq : query_opportunity_data oid target (QueryOutcome.queryError msg) fo ts
      = error_data oid target (classify_query_error msg).1
          (classify_query_error msg).2 ts := rfl
  constructor
  · intro h1 h2
    rw [hq, getField_error_status]
    unfold classify_query_error
    rw [if_neg h2, if_pos h1]
  · intro h1 h2 h3 h4
    rw [hq, getField_error_status]
    unfold classify_query_error
    rw [if_neg h2, if_neg (by simp [h1]), if_neg (by simp [h3]),
      if_neg (by simp [h4])]

/-- C8 witness: a pure invalid-field message classifies as
INVALID_FIELD_ERROR, and an unmatched message as QUERY_ERROR. -/
theorem C8_error_classification_witness :
    getField (query_opportunity_data "006X" "USD"
        (QueryOutcome.queryError "INVALID_FIELD: something") FetchOutcome.failed
        "t") "error_status" = some (FieldValue.str "INVALID_FIELD_ERROR") ∧
    getField (query_opportunity_data "006X" "USD"
        (QueryOutcome.queryError "weird") FetchOutcome.failed "t")
        "error_status" = some (FieldValue.str "QUERY_ERROR") :=
  ⟨(C8_error_classification "INVALID_FIELD: something" "006X" "USD" "t"
      FetchOutcome.failed).1 (by decide) (by decide),
   (C8_error_classification "weird" "006X" "USD" "t" FetchOutcome.failed).2
      (by decide) (by decide) (by decide) (by decide)⟩

/-- C8 counterexample to the unconditional reading: a realistic
Salesforce invalid-field message that also mentions "No such column" and
a "__c" field name is captured by the earlier custom-field pattern, so
it maps to CUSTOM_FIELD_ERROR although it contains "INVALID_FIELD". -/
theorem C8_counterexample :
    containsSub "INVALID_FIELD: No such column Foo__c on entity Opportunity"
        "INVALID_FIELD" = true ∧
    getField (query_opportunity_data "006X" "USD"
        (QueryOutcome.queryError
          "INVALID_FIELD: No such column Foo__c on entity Opportunity")
        FetchOutcome.failed "t") "error_status"
      = some (FieldValue.str "CUSTOM_FIELD_ERROR") := by decide

/-! ## Theorems about the opportunity-id extractor -/

/-- If no position matches the standard `006` pattern, the leftmost
search finds nothing. -/
theorem searchStd_eq_none (s : List Char)
    (h : ∀ i, matchStdAt (s.drop i) = none) :
    searchStd s = none := by
  induction s with
  | nil => rfl
  | cons c cs ih =>
    have h0 : matchStdAt (c :: cs) = none := by simpa using h 0
    simp only [searchStd, h0]
    exact ih (fun i => by simpa [List.drop_succ_cons] using h (i + 1))

/-- A consumed literal is a prefix of the input. -/
theorem dropLit_eq_append {lit s r : List Char} (h : dropLit lit s = some r) :
    s = lit ++ r := by
  induction lit generalizing s with
  | nil =>
    simp only [dropLit, Option.some.injEq] at h
    simp [h]
  | cons l ls ih =>
    cases s with
    | nil => cases h
    | cons c cs =>
      simp only [dropLit] at h
      split_ifs at h with hlc
      · subst hlc
        simp [ih h]

/-- A successful capture search matches at some position. -/
theorem searchCap_exists {lit s r : List Char}
    (h : searchCap lit s = some r) :
    ∃ i, matchCapAt lit (s.drop i) = some r := by
  induction s with
  | nil => cases h
  | cons c cs ih =>
    rw [searchCap] at h
    cases hm : matchCapAt lit (c :: cs) with
    | some m =>
      rw [hm] at h
      exact ⟨0, by simpa using hm.trans h⟩
    | none =>
      rw [hm] at h
      obtain ⟨i, hi⟩ := ih h
      exact ⟨i + 1, by simpa [List.drop_succ_cons] using hi⟩

/-- Anatomy of a successful capture-pattern match. -/
theorem matchCapAt_spec {lit s r : List Char}
    (h : matchCapAt lit s = some r) :
    ∃ rest, dropLit lit s = some rest ∧ 15 ≤ alnumRun rest ∧
      r = rest.take (min (alnumRun rest) 18) := by
  unfold matchCapAt at h
  split at h
  · cases h
  · next rest heq =>
    split_ifs at h with hr
    simp only [Option.some.injEq] at h
    exact ⟨rest, heq, hr, h.symm⟩

/-- If a captured run of 15 or more alphanumerics starts with `006`,
then the standard pattern matches right where the run starts. -/
theorem matchStdAt_of_take006 {rest : List Char}
    (hrun : 15 ≤ alnumRun rest)
    (h006 : startsWith006 (rest.take (min (alnumRun rest) 18)) = true) :
    matchStdAt rest ≠ none := by
  have hpre : ['0', '0', '6'] <+: rest := by
    have h1 : ['0', '0', '6'] <+: rest.take (min (alnumRun rest) 18) := by
      rw [← List.isPrefixOf_iff_prefix]
      exact h006
    exact h1.trans ( List.take_prefix _ _)
  obtain ⟨t, ht⟩ := hpre
  subst ht
  rw [show ((['0', '0', '6'] : List Char) ++ t) = '0' :: '0' :: '6' :: t
    from rfl] at hrun ⊢
  have hrun3 : alnumRun ('0' :: '0' :: '6' :: t) = alnumRun t + 3 := by
    simp [alnumRun, isAlnum]
  rw [hrun3] at hrun
  have h12 : 12 ≤ alnumRun t := by omega
  simp only [matchStdAt]
  rw [if_pos h12]
  simp

/-- If no position of the input matches the 006 pattern, a captured URL
id can never start with 006. -/
theorem searchCap_filter_none (lit : List Char) (s : List Char)
    (hall : ∀ i, matchStdAt (s.drop i) = none) :
    (searchCap lit s).filter startsWith006 = none := by
  cases hs : searchCap lit s with
  | none => rfl
  | some r =>
    obtain ⟨i, hm⟩ := searchCap_exists hs
    obtain ⟨rest, hd, hrun, hr⟩ := matchCapAt_spec hm
    cases h006 : startsWith006 r with
    | false => simp [Option.filter, h006]
    | true =>
      exfalso
      subst hr
      have hstd : matchStdAt rest ≠ none := matchStdAt_of_take006 hrun h006
      have hsplit := dropLit_eq_append hd
      have hrest : rest = s.drop (i + lit.length) := by
        have h' : List.drop lit.length (List.drop i s) = rest := by
          rw [hsplit, List.drop_left]
        rw [List.drop_drop] at h'
        exact h'.symm
      exact hstd (hrest ▸ hall (i + lit.length))

/-- C9: an input with no valid record id — every occurrence of the fixed
prefix "006" (if any) is followed by fewer than 12 alphanumerics, so no
substring of the input has the shape of a 15-to-18 character id — makes
`extract_opportunity_id` return none, with no partial or fuzzy result
from the URL patterns either. -/
theorem C9_no_valid_id (url : String)
    (h : ∀ i < url.toList.length, matchStdAt (url.toList.drop i) = none) :
    extract_opportunity_id url = none := by
  have hall : ∀ i, matchStdAt (url.toList.drop i) = none := by
    intro i
    by_cases hi : i < url.toList.length
    · exact h i hi
    · rw [List.drop_eq_nil_of_le (le_of_not_lt hi)]
      rfl
  have h1 : (searchStd url.toList).filter startsWith006 = none := by
    rw [searchStd_eq_none _ hall]
    rfl
  have h2 := searchCap_filter_none "/Opportunity/".toList url.toList hall
  have h3 := searchCap_filter_none "Opportunity%2F".toList url.toList hall
  unfold extract_opportunity_id
  rw [h1, h2, h3]

/-- C9 witness: a Salesforce-looking URL whose id digits never form a
006 run. -/
theorem C9_no_valid_id_witness :
    (∀ i < ("https://x.com/Opportunity/123456789012345/view".toList.length),
      matchStdAt ("https://x.com/Opportunity/123456789012345/view".toList.drop i)
        = none) ∧
    extract_opportunity_id "https://x.com/Opportunity/123456789012345/view"
      = none :=
  ⟨by decide, C9_no_valid_id "https://x.com/Opportunity/123456789012345/view"
    (by decide)⟩

end SFHarvester
